import Mathlib

/-!
Verification of the trulens OTEL instrumentation subsystem.

Shallow embedding of:
- `src/core/trulens/experimental/otel_tracing/core/session.py`
  (`_set_up_tracer_provider`, `_can_import`, `_TruSession._set_up_otel_exporter`,
  `_TruSession._track_costs`),
- `src/connectors/snowflake/trulens/connectors/snowflake/dao/enums.py`
  (`ObjectType.is_valid_object`),
- the instrumentation wrapper and function-name resolver exercised by
  `tests/unit/test_otel_instrument.py` (the implementation module
  `trulens.experimental.otel_tracing.core.instrument` is not part of the
  sources; those parts are modelled from the spec, as marked).

The OpenTelemetry API functions `trace.set_tracer_provider` and
`trace.get_tracer_provider` are external collaborators; they are embedded with
their documented semantics: the global tracer provider can be set only once,
and any later `set_tracer_provider` call logs a warning and leaves the
already-installed provider in place.
-/

/-! ## Snowflake DAO enums: `ObjectType` -/

/-- The values of the declared members of the `ObjectType` enum
(`ObjectType.__members__.values()`); the single member is
`EXTERNAL_AGENT = "EXTERNAL AGENT"`. -/
def ObjectType.memberValues : List String := ["EXTERNAL AGENT"]

/-- `ObjectType.is_valid_object(key)`: `key in cls.__members__.values()`.
Membership of a string in the member list compares by string value, since
`ObjectType` is a `str` enum. -/
def ObjectType.is_valid_object (key : String) : Bool :=
  ObjectType.memberValues.contains key

/-! ## OpenTelemetry global tracer-provider state -/

/-- A value that may be installed as the process-wide global tracer provider.
`sdk id resource` is an instance of the SDK class
`opentelemetry.sdk.trace.TracerProvider` (the `id` distinguishes distinct
instances, modelling object identity); `foreign` is a provider installed by
some other subsystem that is not an instance of that SDK class; `proxy` is
the API's placeholder `ProxyTracerProvider`. -/
inductive OtelProvider
  | sdk (id : Nat) (resource : List (String × String))
  | foreign (desc : String)
  | proxy
  deriving DecidableEq, Repr

/-- `isinstance(p, opentelemetry.sdk.trace.TracerProvider)`. -/
def OtelProvider.isSdkTracerProvider : OtelProvider → Bool
  | .sdk _ _ => true
  | _ => false

/-- The process-wide OpenTelemetry global state: the installed provider, if
any (`opentelemetry.trace._TRACER_PROVIDER`), plus a counter supplying fresh
object identities for newly constructed providers. -/
structure OtelGlobal where
  provider : Option OtelProvider
  nextId : Nat
  deriving DecidableEq, Repr

/-- `opentelemetry.trace.set_tracer_provider(p)`: installs `p` only when no
global provider has been set; otherwise it logs
"Overriding of current TracerProvider is not allowed" and leaves the state
unchanged (the global provider can be set only once per process). -/
def set_tracer_provider (p : OtelProvider) (g : OtelGlobal) : OtelGlobal :=
  match g.provider with
  | some _ => g
  | none => { g with provider := some p }

/-- `opentelemetry.trace.get_tracer_provider()`: the installed provider, or
the API's proxy placeholder when none is installed. -/
def get_tracer_provider (g : OtelGlobal) : OtelProvider :=
  g.provider.getD OtelProvider.proxy

/-! ## `session.py`: `_set_up_tracer_provider` -/

/-- `TRULENS_SERVICE_NAME = "trulens"`. -/
def TRULENS_SERVICE_NAME : String := "trulens"

/-- `_set_up_tracer_provider()`: creates a `Resource` tagged
`service.name = "trulens"`, constructs a fresh SDK `TracerProvider` owning it,
calls `trace.set_tracer_provider` on it, re-reads the global provider, raises
`ValueError("Received a TracerProvider of an unexpected type!")` when the
re-read global is not an SDK `TracerProvider`, and otherwise returns the
re-read global provider. Returns the raised error or the returned provider,
together with the global state after the call. -/
def _set_up_tracer_provider (g : OtelGlobal) :
    Except String OtelProvider × OtelGlobal :=
  let resource : List (String × String) :=
    [("service.name", TRULENS_SERVICE_NAME)]
  let provider := OtelProvider.sdk g.nextId resource
  let g1 := set_tracer_provider provider { g with nextId := g.nextId + 1 }
  let global_tracer_provider := get_tracer_provider g1
  if global_tracer_provider.isSdkTracerProvider then
    (.ok global_tracer_provider, g1)
  else
    (.error "Received a TracerProvider of an unexpected type!", g1)

/-! ## Theorems: ObjectType and tracer-provider bootstrap -/

/-- C9: `ObjectType.is_valid_object key` returns `true` exactly when `key`
equals the string value of a declared `ObjectType` member, i.e. iff
`key = "EXTERNAL AGENT"`. -/
theorem is_valid_object_iff (key : String) :
    ObjectType.is_valid_object key = true ↔ key = "EXTERNAL AGENT" := by
  simp [ObjectType.is_valid_object, ObjectType.memberValues]

/-- C4: when a previously installed global tracer provider is of an
incompatible type (not an SDK `TracerProvider`), `_set_up_tracer_provider`
surfaces the configuration error (the `ValueError`) to the caller immediately:
the single straight-line execution ends in the error, with no retry. -/
theorem set_up_tracer_provider_incompatible_fails (g : OtelGlobal) (d : String)
    (h : g.provider = some (OtelProvider.foreign d)) :
    (_set_up_tracer_provider g).1 =
      .error "Received a TracerProvider of an unexpected type!" := by
  simp [_set_up_tracer_provider, set_tracer_provider, get_tracer_provider, h,
    OtelProvider.isSdkTracerProvider]

theorem set_up_tracer_provider_incompatible_fails_witness :
    (_set_up_tracer_provider ⟨some (OtelProvider.foreign "other"), 5⟩).1 =
      .error "Received a TracerProvider of an unexpected type!" :=
  set_up_tracer_provider_incompatible_fails
    ⟨some (OtelProvider.foreign "other"), 5⟩ "other" rfl

/-- C5 counterexample: a call with a compatible (SDK) provider already
installed — here `sdk 0` with an untagged resource, object-id counter 1 — is
non-failing, yet it returns the old provider, not the provider it just
created (`sdk 1`, owning the `service.name = "trulens"` resource), and
installs nothing: the returned value is not the global provider the call
installed, because it installed none. -/
theorem set_up_tracer_provider_nonfailing_counterexample :
    (_set_up_tracer_provider ⟨some (OtelProvider.sdk 0 []), 1⟩).1 =
        .ok (OtelProvider.sdk 0 []) ∧
      (_set_up_tracer_provider ⟨some (OtelProvider.sdk 0 []), 1⟩).1 ≠
        .ok (OtelProvider.sdk 1 [("service.name", TRULENS_SERVICE_NAME)]) ∧
      (_set_up_tracer_provider ⟨some (OtelProvider.sdk 0 []), 1⟩).2.provider =
        some (OtelProvider.sdk 0 []) := by
  refine ⟨rfl, ?_, rfl⟩
  intro h
  rw [show (_set_up_tracer_provider ⟨some (OtelProvider.sdk 0 []), 1⟩).1 =
      .ok (OtelProvider.sdk 0 []) from rfl] at h
  simp at h

/-- C5 amended: on every non-failing path `_set_up_tracer_provider` creates
a provider owning a `Resource` tagged `service.name = "trulens"`; when no
global provider is installed yet it installs that provider process-wide and
returns it (the returned value is the global provider it just installed);
when a compatible (SDK) provider is already installed, the call also does
not fail but returns that previously installed provider, and the newly
created provider is discarded without being installed. -/
theorem set_up_tracer_provider_nonfailing (g : OtelGlobal) :
    (g.provider = none →
      _set_up_tracer_provider g =
        (.ok (OtelProvider.sdk g.nextId
            [("service.name", TRULENS_SERVICE_NAME)]),
          { g with
            provider := some (OtelProvider.sdk g.nextId
              [("service.name", TRULENS_SERVICE_NAME)])
            nextId := g.nextId + 1 })) ∧
    (∀ i res, g.provider = some (OtelProvider.sdk i res) →
      _set_up_tracer_provider g =
        (.ok (OtelProvider.sdk i res), { g with nextId := g.nextId + 1 })) := by
  refine ⟨fun h => ?_, fun i res h => ?_⟩ <;>
    simp [_set_up_tracer_provider, set_tracer_provider, get_tracer_provider,
      h, OtelProvider.isSdkTracerProvider]

theorem set_up_tracer_provider_nonfailing_witness :
    _set_up_tracer_provider ⟨none, 4⟩ =
        (.ok (OtelProvider.sdk 4 [("service.name", TRULENS_SERVICE_NAME)]),
          ⟨some (OtelProvider.sdk 4
            [("service.name", TRULENS_SERVICE_NAME)]), 5⟩) ∧
      _set_up_tracer_provider ⟨some (OtelProvider.sdk 3 [("a", "b")]), 7⟩ =
        (.ok (OtelProvider.sdk 3 [("a", "b")]),
          ⟨some (OtelProvider.sdk 3 [("a", "b")]), 8⟩) :=
  ⟨(set_up_tracer_provider_nonfailing ⟨none, 4⟩).1 rfl,
    (set_up_tracer_provider_nonfailing
      ⟨some (OtelProvider.sdk 3 [("a", "b")]), 7⟩).2 3 [("a", "b")] rfl⟩

/-- C6 counterexample: starting from a fresh state, running
`_set_up_tracer_provider` twice does not hand back a fresh provider on the
second call: the second call returns the provider installed by the first call
(object id 0), not the newly created instance (object id 1), and the global
provider is still the first one. -/
theorem second_set_up_does_not_replace_counterexample :
    (_set_up_tracer_provider (_set_up_tracer_provider ⟨none, 0⟩).2).1 ≠
        .ok (OtelProvider.sdk 1 [("service.name", TRULENS_SERVICE_NAME)]) ∧
      (_set_up_tracer_provider (_set_up_tracer_provider ⟨none, 0⟩).2).1 =
        .ok (OtelProvider.sdk 0 [("service.name", TRULENS_SERVICE_NAME)]) ∧
      (_set_up_tracer_provider (_set_up_tracer_provider ⟨none, 0⟩).2).2.provider =
        some (OtelProvider.sdk 0 [("service.name", TRULENS_SERVICE_NAME)]) := by
  refine ⟨?_, rfl, rfl⟩
  intro h
  rw [show (_set_up_tracer_provider
        (_set_up_tracer_provider ⟨none, 0⟩).2).1 =
      .ok (OtelProvider.sdk 0 [("service.name", TRULENS_SERVICE_NAME)])
    from rfl] at h
  simp at h

/-- C6 amended: calling `_set_up_tracer_provider` again after a compatible
(SDK) provider is already installed does not replace it:
`set_tracer_provider` is set-once, so the call returns the previously
installed provider and the global provider is unchanged (only the fresh,
discarded provider object was allocated). -/
theorem second_set_up_returns_previous (g : OtelGlobal) (i : Nat)
    (res : List (String × String))
    (h : g.provider = some (OtelProvider.sdk i res)) :
    _set_up_tracer_provider g =
      (.ok (OtelProvider.sdk i res), { g with nextId := g.nextId + 1 }) := by
  simp [_set_up_tracer_provider, set_tracer_provider, get_tracer_provider, h,
    OtelProvider.isSdkTracerProvider]

theorem second_set_up_returns_previous_witness :
    _set_up_tracer_provider ⟨some (OtelProvider.sdk 0 []), 1⟩ =
      (.ok (OtelProvider.sdk 0 []), ⟨some (OtelProvider.sdk 0 []), 2⟩) :=
  second_set_up_returns_previous ⟨some (OtelProvider.sdk 0 []), 1⟩ 0 [] rfl

/-! ## `session.py`: `_TruSession._set_up_otel_exporter` -/

/-- A value passed (or defaulted) as the session's OTEL span exporter.
`spanExporter truthy name` is an instance of the SDK class
`opentelemetry.sdk.trace.export.SpanExporter`; `nonExporter truthy name` is
a non-`None` object that is not a `SpanExporter` instance. The `truthy` flag
records how Python's `bool(...)` evaluates the object (e.g. `[]`, `""` and
`0` are falsy non-`None` objects). -/
inductive ExporterVal
  | spanExporter (truthy : Bool) (name : String)
  | nonExporter (truthy : Bool) (name : String)
  deriving DecidableEq, Repr

/-- `isinstance(e, otel_export_sdk.SpanExporter)`. -/
def ExporterVal.isSpanExporter : ExporterVal → Bool
  | .spanExporter _ _ => true
  | .nonExporter _ _ => false

/-- `bool(e)`: Python truthiness of the object. -/
def ExporterVal.isTruthy : ExporterVal → Bool
  | .spanExporter t _ => t
  | .nonExporter t _ => t

/-- The fields of a `_TruSession` touched by `_set_up_otel_exporter`:
the `OTEL_TRACING` experimental-feature flag value and its frozen bit, the
stored exporter (`_experimental_otel_exporter`), the stored tracer provider
(`_experimental_tracer_provider`), and the stored batch span processor
(`_experimental_otel_span_processor`, recorded as the exporter it wraps). -/
structure TruSessionState where
  otelTracingValue : Option Bool
  otelTracingFrozen : Bool
  otelExporter : Option ExporterVal
  tracerProvider : Option OtelProvider
  spanProcessorExporter : Option ExporterVal
  deriving DecidableEq, Repr

/-- `_TruSession._set_up_otel_exporter(connector, exporter)`, threading the
session state and the OpenTelemetry global state. In source order: (1) sets
the `OTEL_TRACING` feature flag to `True` with `freeze=True`; (2) logs;
(3) `if not exporter:` — Python truthiness, so both `None` and any falsy
non-`None` object — replaces the exporter with
`TruLensOTELSpanExporter(connector)` (a truthy `SpanExporter` instance);
(4) stores the exporter on the session; (5) runs `_set_up_tracer_provider`
and stores the provider on the session; (6) raises
`ValueError("Provided exporter must be an OpenTelemetry SpanExporter")` when
the exporter is not a `SpanExporter` instance; (7) otherwise wraps the
exporter in a `BatchSpanProcessor` and registers it. The first component is
the raised error message, if any; the session and global state returned are
the states at the point the call ends (normally or by raising). -/
def _set_up_otel_exporter (sess : TruSessionState) (g : OtelGlobal)
    (exporter : Option ExporterVal) :
    Option String × TruSessionState × OtelGlobal :=
  let sess1 := { sess with
    otelTracingValue := some true, otelTracingFrozen := true }
  let defaultExporter := ExporterVal.spanExporter true "TruLensOTELSpanExporter"
  let exporter1 := match exporter with
    | none => defaultExporter
    | some e => if e.isTruthy then e else defaultExporter
  let sess2 := { sess1 with otelExporter := some exporter1 }
  match _set_up_tracer_provider g with
  | (.error msg, g1) => (some msg, sess2, g1)
  | (.ok tracer_provider, g1) =>
    let sess3 := { sess2 with tracerProvider := some tracer_provider }
    if ¬ exporter1.isSpanExporter then
      (some "Provided exporter must be an OpenTelemetry SpanExporter",
        sess3, g1)
    else
      ({ sess3 with spanProcessorExporter := some exporter1 }, g1) |>
        fun p => (none, p.1, p.2)

/-- C10 counterexample: a falsy non-`None` non-`SpanExporter` argument
(Python's `[]`) falsifies the claim's universal statement: `if not exporter:`
takes the default branch, so the call raises no `ValueError`, stores the
default `TruLensOTELSpanExporter` instead of the invalid exporter, and runs
to completion, registering the span processor. -/
theorem set_up_otel_exporter_falsy_counterexample :
    (_set_up_otel_exporter ⟨none, false, none, none, none⟩ ⟨none, 0⟩
        (some (ExporterVal.nonExporter false "[]"))).1 = none ∧
      (_set_up_otel_exporter ⟨none, false, none, none, none⟩ ⟨none, 0⟩
          (some (ExporterVal.nonExporter false "[]"))).2.1.otelExporter =
        some (ExporterVal.spanExporter true "TruLensOTELSpanExporter") ∧
      (_set_up_otel_exporter ⟨none, false, none, none, none⟩ ⟨none, 0⟩
          (some (ExporterVal.nonExporter false
            "[]"))).2.1.spanProcessorExporter =
        some (ExporterVal.spanExporter true "TruLensOTELSpanExporter") :=
  ⟨rfl, rfl, rfl⟩

/-- C10 amended: `_set_up_otel_exporter` is not atomic on error. For every
truthy (in Python's sense) non-`None` exporter that is not a `SpanExporter`
instance (run from a state with no global provider installed yet), the call
ends in the `ValueError` — but only after it has already set and frozen the
session's `OTEL_TRACING` flag to true, stored the invalid exporter in the
session state, and installed a new global tracer provider (also stored on
the session); these side effects persist despite the error, and only the
span processor registration is never reached. Falsy exporter arguments are
instead replaced by the default `TruLensOTELSpanExporter` and raise
nothing. -/
theorem set_up_otel_exporter_not_atomic (sess : TruSessionState)
    (g : OtelGlobal) (name : String) (h : g.provider = none) :
    (_set_up_otel_exporter sess g
        (some (ExporterVal.nonExporter true name))).1 =
        some "Provided exporter must be an OpenTelemetry SpanExporter" ∧
      (_set_up_otel_exporter sess g
          (some (ExporterVal.nonExporter true name))).2.1.otelTracingValue =
        some true ∧
      (_set_up_otel_exporter sess g
          (some (ExporterVal.nonExporter true name))).2.1.otelTracingFrozen =
        true ∧
      (_set_up_otel_exporter sess g
          (some (ExporterVal.nonExporter true name))).2.1.otelExporter =
        some (ExporterVal.nonExporter true name) ∧
      (_set_up_otel_exporter sess g
          (some (ExporterVal.nonExporter true name))).2.2.provider =
        some (OtelProvider.sdk g.nextId
          [("service.name", TRULENS_SERVICE_NAME)]) ∧
      (_set_up_otel_exporter sess g
          (some (ExporterVal.nonExporter true name))).2.1.tracerProvider =
        some (OtelProvider.sdk g.nextId
          [("service.name", TRULENS_SERVICE_NAME)]) ∧
      (_set_up_otel_exporter sess g
          (some (ExporterVal.nonExporter
            true name))).2.1.spanProcessorExporter =
        sess.spanProcessorExporter := by
  refine ⟨?_, ?_, ?_, ?_, ?_, ?_, ?_⟩ <;>
    simp [_set_up_otel_exporter, _set_up_tracer_provider,
      set_tracer_provider, get_tracer_provider, h,
      OtelProvider.isSdkTracerProvider, ExporterVal.isSpanExporter,
      ExporterVal.isTruthy]

theorem set_up_otel_exporter_not_atomic_witness :
    (_set_up_otel_exporter ⟨none, false, none, none, none⟩ ⟨none, 0⟩
        (some (ExporterVal.nonExporter true "NotAnExporter"))).1 =
        some "Provided exporter must be an OpenTelemetry SpanExporter" ∧
      (_set_up_otel_exporter ⟨none, false, none, none, none⟩ ⟨none, 0⟩
          (some (ExporterVal.nonExporter
            true "NotAnExporter"))).2.1.otelTracingValue =
        some true ∧
      (_set_up_otel_exporter ⟨none, false, none, none, none⟩ ⟨none, 0⟩
          (some (ExporterVal.nonExporter
            true "NotAnExporter"))).2.1.otelTracingFrozen =
        true ∧
      (_set_up_otel_exporter ⟨none, false, none, none, none⟩ ⟨none, 0⟩
          (some (ExporterVal.nonExporter
            true "NotAnExporter"))).2.1.otelExporter =
        some (ExporterVal.nonExporter true "NotAnExporter") ∧
      (_set_up_otel_exporter ⟨none, false, none, none, none⟩ ⟨none, 0⟩
          (some (ExporterVal.nonExporter
            true "NotAnExporter"))).2.2.provider =
        some (OtelProvider.sdk 0
          [("service.name", TRULENS_SERVICE_NAME)]) ∧
      (_set_up_otel_exporter ⟨none, false, none, none, none⟩ ⟨none, 0⟩
          (some (ExporterVal.nonExporter
            true "NotAnExporter"))).2.1.tracerProvider =
        some (OtelProvider.sdk 0
          [("service.name", TRULENS_SERVICE_NAME)]) ∧
      (_set_up_otel_exporter ⟨none, false, none, none, none⟩ ⟨none, 0⟩
          (some (ExporterVal.nonExporter
            true "NotAnExporter"))).2.1.spanProcessorExporter =
        (⟨none, false, none, none, none⟩ : TruSessionState).spanProcessorExporter :=
  set_up_otel_exporter_not_atomic ⟨none, false, none, none, none⟩ ⟨none, 0⟩
    "NotAnExporter" rfl

/-! ## `session.py`: `_can_import` and `_TruSession._track_costs` -/

/-- The possible outcomes of `__import__(to_import)`. -/
inductive ImportOutcome
  | success
  | importErrorRaised
  | otherErrorRaised (msg : String)
  deriving DecidableEq, Repr

/-- `_can_import(to_import)`: returns `True` when the import succeeds,
`False` when the import raises `ImportError`; any other exception escapes. -/
def _can_import (outcome : ImportOutcome) : Except String Bool :=
  match outcome with
  | .success => .ok true
  | .importErrorRaised => .ok false
  | .otherErrorRaised msg => .error msg

/-- `BASE_SCOPE` from `trulens.otel.semconv.trace`; the test-visible
attribute keys (`"trulens.unknown.best_baby"`, `"trulens.costs."` prefix)
fix it to `"trulens"`. -/
def BASE_SCOPE : String := "trulens"

/-- An `instrument_method(cls, method_name, span_type=...,
full_scoped_attributes=..., must_be_first_wrapper=...)` registration as
issued by `_track_costs`. `fullScopedAttributes` maps the wrapped call's
return value to the already-scoped attribute mapping. -/
structure Registration where
  targetClass : String
  methodName : String
  spanType : String
  fullScopedAttributes : String → List (String × String)
  mustBeFirstWrapper : Bool

/-- The import environment `_track_costs` runs in: whether each provider
package is importable, the classes with a `create` attribute found in the
`openai`, `openai.resources` and `openai.resources.chat` modules, and the
two providers' `handle_response` cost computations (result fields of a
response value). -/
structure CostEnv where
  cortexImportable : Bool
  openaiImportable : Bool
  openaiCreateClasses : List String
  cortexHandleResponse : String → List (String × String)
  openaiHandleResponse : String → List (String × String)

/-- Re-keys cost-computation result fields under
`f"{BASE_SCOPE}.costs." + k`, as the lambdas in `_track_costs` do. -/
def scopeCosts (fields : List (String × String)) : List (String × String) :=
  fields.map fun kv => (BASE_SCOPE ++ ".costs." ++ kv.1, kv.2)

/-- The Cortex registration: `instrument_method(SSEClient, "events",
span_type=UNKNOWN, full_scoped_attributes=<scoped CortexCostComputer
.handle_response fields>, must_be_first_wrapper=True)`. -/
def cortexRegistration (env : CostEnv) : Registration where
  targetClass := "SSEClient"
  methodName := "events"
  spanType := "unknown"
  fullScopedAttributes := fun ret => scopeCosts (env.cortexHandleResponse ret)
  mustBeFirstWrapper := true

/-- The OpenAI registration for one class with a `create` attribute:
`instrument_method(obj, "create", span_type=UNKNOWN,
full_scoped_attributes=<scoped OpenAICostComputer.handle_response fields>,
must_be_first_wrapper=True)`. -/
def openaiRegistration (env : CostEnv) (cls : String) : Registration where
  targetClass := cls
  methodName := "create"
  spanType := "unknown"
  fullScopedAttributes := fun ret => scopeCosts (env.openaiHandleResponse ret)
  mustBeFirstWrapper := true

/-- `_TruSession._track_costs()`: when the Cortex provider package is
importable, registers on `SSEClient.events`; when the OpenAI provider
package is importable, registers on `cls.create` for every class with a
`create` attribute in the scanned openai modules; otherwise registers
nothing for the missing provider. Returns the list of registrations made. -/
def _track_costs (env : CostEnv) : List Registration :=
  (if env.cortexImportable then [cortexRegistration env] else []) ++
    (if env.openaiImportable then
      env.openaiCreateClasses.map (openaiRegistration env)
    else [])

/-- C7: for every provider whose package is importable, `_track_costs`
registers on the known response-producing methods (`SSEClient.events` for
Cortex; `cls.create` for each scanned openai class with a `create`
attribute); every registration it makes carries
`must_be_first_wrapper = true`, and each registration's extractor delegates
to the provider's `handle_response` and republishes every result field under
the key prefixed with `"trulens.costs."`. -/
theorem track_costs_registrations (env : CostEnv) :
    (env.cortexImportable = true →
      cortexRegistration env ∈ _track_costs env) ∧
    (env.openaiImportable = true → ∀ cls ∈ env.openaiCreateClasses,
      openaiRegistration env cls ∈ _track_costs env) ∧
    (∀ r ∈ _track_costs env, r.mustBeFirstWrapper = true) ∧
    (cortexRegistration env).targetClass = "SSEClient" ∧
    (cortexRegistration env).methodName = "events" ∧
    (∀ cls, (openaiRegistration env cls).targetClass = cls ∧
      (openaiRegistration env cls).methodName = "create") ∧
    (∀ ret, (cortexRegistration env).fullScopedAttributes ret =
      (env.cortexHandleResponse ret).map
        fun kv => ("trulens.costs." ++ kv.1, kv.2)) ∧
    (∀ cls ret, (openaiRegistration env cls).fullScopedAttributes ret =
      (env.openaiHandleResponse ret).map
        fun kv => ("trulens.costs." ++ kv.1, kv.2)) := by
  refine ⟨fun h => ?_, fun h cls hcls => ?_, fun r hr => ?_, rfl, rfl,
    fun cls => ⟨rfl, rfl⟩, fun ret => rfl, fun cls ret => rfl⟩
  · simp [_track_costs, h]
  · simp only [_track_costs, h, if_true, List.mem_append]
    exact Or.inr (List.mem_map_of_mem _ hcls)
  · simp only [_track_costs, List.mem_append] at hr
    rcases hr with hr | hr
    · split at hr
      · simp only [List.mem_singleton] at hr
        subst hr
        rfl
      · simp at hr
    · split at hr
      · obtain ⟨cls, _, rfl⟩ := List.mem_map.mp hr
        rfl
      · simp at hr

/-- A concrete import environment for witnesses: both providers importable,
one scanned openai class. -/
def costEnvExample : CostEnv where
  cortexImportable := true
  openaiImportable := true
  openaiCreateClasses := ["Completions"]
  cortexHandleResponse := fun _ => [("n_tokens", "7")]
  openaiHandleResponse := fun _ => [("cost", "0.5")]

theorem track_costs_registrations_witness :
    cortexRegistration costEnvExample ∈ _track_costs costEnvExample ∧
      openaiRegistration costEnvExample "Completions" ∈
        _track_costs costEnvExample :=
  ⟨(track_costs_registrations costEnvExample).1 rfl,
    (track_costs_registrations costEnvExample).2.1 rfl "Completions"
      (by simp [costEnvExample])⟩

/-- C8: `_can_import` returns `false` exactly when the import raises
`ImportError`; and `_track_costs` silently skips providers whose package is
not importable: with neither provider importable it makes no registration at
all (and returns normally — it is a total function); with only Cortex
missing every registration is an OpenAI one, and with only OpenAI missing
every registration is the Cortex one. -/
theorem track_costs_skips_unimportable (outcome : ImportOutcome)
    (env : CostEnv) :
    (_can_import outcome = .ok false ↔ outcome = .importErrorRaised) ∧
    (env.cortexImportable = false → env.openaiImportable = false →
      _track_costs env = []) ∧
    (env.cortexImportable = false → ∀ r ∈ _track_costs env,
      ∃ cls ∈ env.openaiCreateClasses, r = openaiRegistration env cls) ∧
    (env.openaiImportable = false → ∀ r ∈ _track_costs env,
      r = cortexRegistration env) := by
  refine ⟨?_, fun h1 h2 => ?_, fun h1 r hr => ?_, fun h2 r hr => ?_⟩
  · cases outcome <;> simp [_can_import]
  · simp [_track_costs, h1, h2]
  · simp [_track_costs, h1] at hr
    obtain ⟨-, cls, hcls, hre⟩ := hr
    exact ⟨cls, hcls, hre.symm⟩
  · simp [_track_costs, h2] at hr
    exact hr.2

theorem track_costs_skips_unimportable_witness :
    (_can_import ImportOutcome.importErrorRaised = .ok false ↔
      ImportOutcome.importErrorRaised = ImportOutcome.importErrorRaised) ∧
    _track_costs
        { costEnvExample with
          cortexImportable := false, openaiImportable := false } = [] :=
  ⟨(track_costs_skips_unimportable ImportOutcome.importErrorRaised
      costEnvExample).1,
    (track_costs_skips_unimportable ImportOutcome.importErrorRaised
      { costEnvExample with
        cortexImportable := false, openaiImportable := false }).2.1 rfl rfl⟩

/-! ## The instrumentation wrapper and name resolver

The module `trulens.experimental.otel_tracing.core.instrument` (providing
`instrument`, `instrument_method` and `_get_func_name`) is not among the
sources; only its unit tests are. The definitions below are therefore
modelled from the spec (sections 4.2, 4.3 and 8). -/

/-- Modelled from the spec: the reflection data of a Python callable that
the missing function-name resolver `_get_func_name` consumes. `declModule`
is the module path declared by the underlying function object (for a method
bound to a foreign class, that library's own module); `accessedViaModule` is
the module of the instrumenting wrapper code that references the callable;
`qualname` is the qualified function path inside its module, including the
enclosing class and the synthetic markers for inner functions and lambdas. -/
structure PyCallable where
  accessedViaModule : String
  declModule : String
  qualname : String
  deriving DecidableEq, Repr

/-- Modelled from the spec: the missing resolver
`_get_func_name(callable) -> str` produces the fully qualified deterministic
name `<module-or-package-path>.<qualified-function-path>`, reaching into the
declaring module of the underlying function object — never the wrapper's own
module. -/
def _get_func_name (f : PyCallable) : String :=
  f.declModule ++ "." ++ f.qualname

/-- Span status: OK, or ERROR with the exception's message. -/
inductive SpanStatus
  | ok
  | error (msg : String)
  deriving DecidableEq, Repr

/-- An exported span: name, attribute mapping, status. -/
structure Span where
  name : String
  attributes : List (String × String)
  status : SpanStatus
  deriving DecidableEq, Repr

/-- An attribute extractor `(ret, exception, *args, **kwargs) -> mapping`,
with values rendered as strings. -/
def AttrExtractor : Type :=
  Option String → Option String → List String → List (String × String) →
    List (String × String)

/-- Namespaces an extractor's mapping under
`"<BASE_SCOPE>.<span-type>.<key>"`, as witnessed by the exported attribute
key `"trulens.unknown.best_baby"`. -/
def namespaceAttrs (spanType : String) (attrs : List (String × String)) :
    List (String × String) :=
  attrs.map fun kv => (BASE_SCOPE ++ "." ++ spanType ++ "." ++ kv.1, kv.2)

/-- Modelled from the spec: one invocation of a synchronous non-generator
callable wrapped by the missing `instrument` decorator. A span named by
`_get_func_name` opens before delegating to the original callable; after the
call completes (`callResult` is its return value or raised error), the
extractor computes attributes from the outcome, the span closes with the
matching status and is handed to the exporter, and the original outcome is
returned (or re-raised) unchanged. -/
def instrumentedCall (f : PyCallable) (spanType : String)
    (extractor : AttrExtractor) (args : List String)
    (kwargs : List (String × String)) (callResult : Except String String)
    (exported : List Span) : Except String String × List Span :=
  let ret : Option String := match callResult with
    | .ok r => some r
    | .error _ => none
  let exc : Option String := match callResult with
    | .ok _ => none
    | .error m => some m
  let status : SpanStatus := match callResult with
    | .ok _ => .ok
    | .error m => .error m
  let span : Span :=
    { name := _get_func_name f
      attributes := namespaceAttrs spanType (extractor ret exc args kwargs)
      status := status }
  (callResult, exported ++ [span])

/-- Modelled from the spec: the state of one in-flight asynchronous
instrumented call — the span opened for it (by name), the number of
suspension points still ahead, and the exporter's list of finished spans. -/
structure AsyncCallState where
  openSpanName : Option String
  pendingSuspensions : Nat
  exported : List Span
  deriving DecidableEq, Repr

/-- Modelled from the spec: opening the span for an asynchronous
instrumented call, before the awaited body starts. -/
def asyncSpanOpen (f : PyCallable) (n : Nat) (exported : List Span) :
    AsyncCallState :=
  { openSpanName := some (_get_func_name f)
    pendingSuspensions := n
    exported := exported }

/-- Modelled from the spec: one suspension point (an internal `await`): the
scheduler may interleave other tasks, but the open span is left untouched
and remains open across the suspension. -/
def asyncSuspend (s : AsyncCallState) : AsyncCallState :=
  { s with pendingSuspensions := s.pendingSuspensions - 1 }

/-- Runs `n` suspension points in sequence. -/
def runSuspensions : Nat → AsyncCallState → AsyncCallState
  | 0, s => s
  | Nat.succ n, s => runSuspensions n (asyncSuspend s)

/-- Modelled from the spec: closing the span of an asynchronous instrumented
call once the awaited completion has produced `callResult`: attributes are
computed by the extractor from the outcome, the span closes with the
matching status and is exported, and the outcome is returned unchanged. -/
def asyncSpanClose (spanType : String) (extractor : AttrExtractor)
    (args : List String) (kwargs : List (String × String))
    (callResult : Except String String) (s : AsyncCallState) :
    Except String String × List Span :=
  let ret : Option String := match callResult with
    | .ok r => some r
    | .error _ => none
  let exc : Option String := match callResult with
    | .ok _ => none
    | .error m => some m
  let status : SpanStatus := match callResult with
    | .ok _ => .ok
    | .error m => .error m
  match s.openSpanName with
  | some nm =>
    (callResult, s.exported ++
      [{ name := nm
         attributes := namespaceAttrs spanType (extractor ret exc args kwargs)
         status := status }])
  | none => (callResult, s.exported)

/-- Modelled from the spec: one invocation of an asynchronous non-generator
callable wrapped by the missing `instrument` decorator: the span opens, the
body runs through its `n` suspension points with the span held open, and the
span closes on the awaited completion. -/
def asyncInstrumentedCall (f : PyCallable) (spanType : String)
    (extractor : AttrExtractor) (args : List String)
    (kwargs : List (String × String)) (n : Nat)
    (callResult : Except String String) (exported : List Span) :
    Except String String × List Span :=
  asyncSpanClose spanType extractor args kwargs callResult
    (runSuspensions n (asyncSpanOpen f n exported))

/-- Suspensions leave the open span and the exported list untouched. -/
theorem runSuspensions_preserves (n : Nat) (s : AsyncCallState) :
    (runSuspensions n s).openSpanName = s.openSpanName ∧
      (runSuspensions n s).exported = s.exported := by
  induction n generalizing s with
  | zero => exact ⟨rfl, rfl⟩
  | succ n ih => exact ih (asyncSuspend s)

/-- An asynchronous instrumented call, whatever its number of suspension
points, produces exactly the observable outcome of the synchronous wrapper
semantics applied to the same callable, extractor, arguments and result. -/
theorem asyncInstrumentedCall_eq_instrumentedCall (f : PyCallable)
    (spanType : String) (extractor : AttrExtractor) (args : List String)
    (kwargs : List (String × String)) (n : Nat)
    (callResult : Except String String) (exported : List Span) :
    asyncInstrumentedCall f spanType extractor args kwargs n callResult
        exported =
      instrumentedCall f spanType extractor args kwargs callResult
        exported := by
  have h := runSuspensions_preserves n (asyncSpanOpen f n exported)
  simp only [asyncInstrumentedCall, asyncSpanClose, instrumentedCall,
    asyncSpanOpen] at h ⊢
  rw [h.1, h.2]

/-! ## Theorems: the unit-test scenarios (C1, C2, C3) -/

/-- The sync `my_function` defined inside
`TestOtelInstrument.test_sync_non_generator_function`. -/
def my_function_sync : PyCallable where
  accessedViaModule := "tests.unit.test_otel_instrument"
  declModule := "tests.unit.test_otel_instrument"
  qualname :=
    "TestOtelInstrument.test_sync_non_generator_function.<locals>.my_function"

/-- The async `my_function` defined inside
`TestOtelInstrument.test_async_non_generator_function`. -/
def my_function_async : PyCallable where
  accessedViaModule := "tests.unit.test_otel_instrument"
  declModule := "tests.unit.test_otel_instrument"
  qualname :=
    "TestOtelInstrument.test_async_non_generator_function.<locals>.my_function"

/-- The extractor
`lambda ret, exception, *args, **kwargs: {"best_baby": ret}`. -/
def bestBabyExtractor : AttrExtractor :=
  fun ret _exc _args _kwargs => [("best_baby", ret.getD "None")]

/-- C1: one call of the wrapped synchronous `myFunction` returning
`"Kojikun"`, with the `best_baby` extractor under base scope `"trulens"` and
the default span type `unknown`, returns the original value and exports
exactly one span, named with the fully qualified path of `myFunction` (as
produced by the name resolver) and mapping `"trulens.unknown.best_baby"` to
`"Kojikun"`. -/
theorem sync_call_single_span :
    (instrumentedCall my_function_sync "unknown" bestBabyExtractor [] []
        (.ok "Kojikun") []).1 = .ok "Kojikun" ∧
      (instrumentedCall my_function_sync "unknown" bestBabyExtractor [] []
          (.ok "Kojikun") []).2 =
        [{ name :=
            "tests.unit.test_otel_instrument.TestOtelInstrument.test_sync_non_generator_function.<locals>.my_function"
           attributes := [("trulens.unknown.best_baby", "Kojikun")]
           status := .ok }] ∧
      _get_func_name my_function_sync =
        "tests.unit.test_otel_instrument.TestOtelInstrument.test_sync_non_generator_function.<locals>.my_function" :=
  ⟨rfl, rfl, rfl⟩

/-- The lambda defined in `TestOtelInstrument.test__get_func_name`. -/
def test_lambda : PyCallable where
  accessedViaModule := "tests.unit.test_otel_instrument"
  declModule := "tests.unit.test_otel_instrument"
  qualname := "TestOtelInstrument.test__get_func_name.<locals>.<lambda>"

/-- The bound method `pd.DataFrame.transpose`: the underlying function is
declared in pandas' own module `pandas.core.frame`, while the instrumenting
code referencing it lives in the trulens instrument module. -/
def pandas_transpose : PyCallable where
  accessedViaModule := "trulens.experimental.otel_tracing.core.instrument"
  declModule := "pandas.core.frame"
  qualname := "DataFrame.transpose"

/-- C2: the name resolver is deterministic — two calls on the same (even
anonymous) callable within one run return identical strings — and resolving
a method bound to a class from a foreign library roots the name in that
library's own module path (`pandas.core.frame.DataFrame.transpose`), not in
the instrumenting wrapper's module. The lambda defined in the unit test
resolves to its stable synthetic-marker name. -/
theorem get_func_name_deterministic_and_foreign_rooted :
    (∀ f : PyCallable, _get_func_name f = _get_func_name f) ∧
      _get_func_name test_lambda =
        "tests.unit.test_otel_instrument.TestOtelInstrument.test__get_func_name.<locals>.<lambda>" ∧
      _get_func_name pandas_transpose =
        "pandas.core.frame.DataFrame.transpose" ∧
      List.isPrefixOf pandas_transpose.declModule.toList
        (_get_func_name pandas_transpose).toList = true ∧
      List.isPrefixOf pandas_transpose.accessedViaModule.toList
        (_get_func_name pandas_transpose).toList = false :=
  ⟨fun _ => rfl, rfl, rfl, by decide, by decide⟩

/-- C3: for any number of suspension points, one call of the wrapped
asynchronous `myFunction` returning `"Kojikun"` yields exactly the
observable span outcome of the synchronous wrapper semantics — the
suspension does not alter naming or attribute behavior — namely one exported
span named by the qualified-name rule for that function, mapping
`"trulens.unknown.best_baby"` to `"Kojikun"`, with the original value
returned unchanged. -/
theorem async_call_same_as_sync (n : Nat) :
    asyncInstrumentedCall my_function_async "unknown" bestBabyExtractor [] []
        n (.ok "Kojikun") [] =
      instrumentedCall my_function_async "unknown" bestBabyExtractor [] []
        (.ok "Kojikun") [] ∧
      (asyncInstrumentedCall my_function_async "unknown" bestBabyExtractor
          [] [] n (.ok "Kojikun") []).1 = .ok "Kojikun" ∧
      (asyncInstrumentedCall my_function_async "unknown" bestBabyExtractor
          [] [] n (.ok "Kojikun") []).2 =
        [{ name :=
            "tests.unit.test_otel_instrument.TestOtelInstrument.test_async_non_generator_function.<locals>.my_function"
           attributes := [("trulens.unknown.best_baby", "Kojikun")]
           status := .ok }] ∧
      (asyncInstrumentedCall my_function_async "unknown" bestBabyExtractor
          [] [] n (.ok "Kojikun") []).2.map Span.name =
        [_get_func_name my_function_async] := by
  have h := asyncInstrumentedCall_eq_instrumentedCall my_function_async
    "unknown" bestBabyExtractor [] [] n (.ok "Kojikun") []
  refine ⟨h, ?_, ?_, ?_⟩ <;> rw [h] <;> rfl

theorem is_valid_object_iff_witness :
    ObjectType.is_valid_object "EXTERNAL AGENT" = true ↔
      "EXTERNAL AGENT" = "EXTERNAL AGENT" :=
  is_valid_object_iff "EXTERNAL AGENT"

theorem async_call_same_as_sync_witness :
    asyncInstrumentedCall my_function_async "unknown" bestBabyExtractor [] []
        3 (.ok "Kojikun") [] =
      instrumentedCall my_function_async "unknown" bestBabyExtractor [] []
        (.ok "Kojikun") [] :=
  (async_call_same_as_sync 3).1
